import Mathlib

/-!
Shallow embedding of the Luna BBT phase-inference engine
(`src/backend/src/domain/cycleAnalysis.js` together with the
current-date helper `src/utils/currentDate.js` and the in-memory
settings store), and proofs of the specification claims about it.

Modelling conventions:
* a JS temperature number is an exact rational (`ℚ`);
* a timestamp / `Date` is an integer count of milliseconds since the
  epoch (`ℤ`); `new Date(a.timestamp) - new Date(b.timestamp)` is plain
  integer subtraction;
* `d.setHours(0,0,0,0)` truncates an instant to the start of its day and
  the ISO date part of `Date.toISOString` is the calendar day of an
  instant (days since the epoch) — the time zone is taken as UTC
  throughout, a constant shift that no claim depends on;
* `Math.floor` of a quotient by the positive constant `msPerDay` is
  `Int.fdiv`, `Math.ceil` is negated `Int.fdiv` of the negation;
* JS `Array.prototype.sort` (stable, comparator-driven) is
  `List.insertionSort` with the comparator relation;
* fallible results (`null`) are `Option`.
-/

set_option maxHeartbeats 1000000

namespace Luna

/-- A BBT sample as consumed by `cycleAnalysis.js`: an object
`{ temperature, timestamp }` with the temperature in °C and the
timestamp in milliseconds since the epoch. -/
structure Reading where
  temperature : ℚ
  timestamp : ℤ
  deriving Repr, DecidableEq, Inhabited

/-- Milliseconds in one day, the constant `1000 * 60 * 60 * 24` used by
the source for every day-granularity computation. -/
def msPerDay : ℤ := 1000 * 60 * 60 * 24

/-- Semantics of `d.setHours(0, 0, 0, 0)`: truncate an instant to the
start of its calendar day. -/
def midnight (t : ℤ) : ℤ := msPerDay * (t.fdiv msPerDay)

/-- Semantics of the ISO date string built by `predictPeriodStart`
(the date part of `Date.toISOString`): the calendar day an instant
falls on, as a count of days since the epoch. -/
def dayKey (t : ℤ) : ℤ := t.fdiv msPerDay

/-- Semantics of `Math.ceil(a / b)` for an integer `a` and a positive
integer `b`. -/
def ceilDiv (a b : ℤ) : ℤ := -((-a).fdiv b)

/-- The ascending comparator `(a, b) => new Date(a.timestamp) - new Date(b.timestamp)`
passed to `Array.prototype.sort`: sort a list of readings oldest to
newest (stable). -/
def sortByTimestampAsc (l : List Reading) : List Reading :=
  List.insertionSort (fun a b => a.timestamp ≤ b.timestamp) l

/-- The descending comparator `(a, b) => new Date(b.timestamp) - new Date(a.timestamp)`:
sort a list of readings newest to oldest (stable). -/
def sortByTimestampDesc (l : List Reading) : List Reading :=
  List.insertionSort (fun a b => b.timestamp ≤ a.timestamp) l

/-- Semantics of `l.slice(-n)`: the `n` most recent entries of `l`
(all of `l` when it is shorter than `n`). -/
def takeLast (n : Nat) (l : List Reading) : List Reading :=
  l.drop (l.length - n)

/-- Semantics of `list.reduce((sum, r) => sum + r.temperature, 0) / list.length`:
the arithmetic mean of the temperatures of a list of readings. -/
def meanTemps (l : List Reading) : ℚ :=
  (l.map (·.temperature)).sum / l.length

/-- The confidence tier strings (low, medium, high) attached to an
ovulation detection. -/
inductive Confidence where
  | low
  | medium
  | high
  deriving Repr, DecidableEq

/-- The conditional expression on line 40 of `cycleAnalysis.js`:
high when `avgRise >= 0.5`, else medium when `avgRise >= 0.4`, else
low. -/
def confidenceFor (avgRise : ℚ) : Confidence :=
  if 1/2 ≤ avgRise then .high
  else if 2/5 ≤ avgRise then .medium
  else .low

/-- Semantics of `parseFloat(x.toFixed(2))`: round a value to two
decimal places (nearest, ties upward, as for the nonnegative values
arising here). -/
def round2 (q : ℚ) : ℚ := (round (q * 100) : ℚ) / 100

/-- The object returned by `detectOvulation` on a successful detection. -/
structure OvulationEvent where
  detected : Bool
  date : ℤ
  confidence : Confidence
  temperatureRise : ℚ
  baselineTemp : ℚ
  postOvulationTemp : ℚ
  deriving Repr, DecidableEq

/-- The loop `for (let i = 6; i < recentReadings.length - 2; i++)` in
`detectOvulation`, entered at `i = 6`: at each index, compare the mean
of the 6-sample baseline window `slice(i-6, i)` with the 3-sample rise
window `slice(i, i+3)` and return the detection object at the first
index where the rise fires, advancing otherwise. The structural `fuel`
argument only bounds the number of iterations (the caller passes the
list length, which exceeds the trip count); the loop exit condition is
the guard `i + 2 < recent.length`, exactly as in the source. -/
def ovScan (recent : List Reading) (i : Nat) : Nat → Option OvulationEvent
  | 0 => none
  | fuel + 1 =>
    if i + 2 < recent.length then
      let baselineDays := (recent.drop (i - 6)).take 6
      let baselineAvg := meanTemps baselineDays
      let riseDays := (recent.drop i).take 3
      let riseAvg := meanTemps riseDays
      let allAboveBaseline := riseDays.all fun r => decide (baselineAvg + 1/10 ≤ r.temperature)
      let avgRise := riseAvg - baselineAvg
      if decide (3/10 ≤ avgRise) && allAboveBaseline then
        some { detected := true
               date := riseDays.headI.timestamp
               confidence := confidenceFor avgRise
               temperatureRise := round2 avgRise
               baselineTemp := round2 baselineAvg
               postOvulationTemp := round2 riseAvg }
      else
        ovScan recent (i + 1) fuel
    else
      none

/-- The function `detectOvulation(readings)`: the 3-over-6
basal-body-temperature rise detector of `cycleAnalysis.js`. -/
def detectOvulation (readings : List Reading) : Option OvulationEvent :=
  if readings.length < 9 then
    none
  else
    let sorted := sortByTimestampAsc readings
    let recentReadings := takeLast 30 sorted
    ovScan recentReadings 6 recentReadings.length

/-- The `preferences.simulation` object of the settings store: a demo
mode flag and an optional simulated calendar day (parsed from the
`YYYY-MM-DD` string as days since the epoch). -/
structure SimulationPrefs where
  enabled : Bool
  date : Option ℤ
  deriving Repr, DecidableEq

/-- The `preferences` object of the settings store, restricted to the
field the engine reads through `userSettings?.preferences?.simulation`. -/
structure Preferences where
  simulation : Option SimulationPrefs
  deriving Repr, DecidableEq

/-- The global mutable `userSettings` store (from `data/store.js`),
restricted to the part `getCurrentDate` reads. -/
structure UserSettings where
  preferences : Option Preferences
  deriving Repr, DecidableEq

/-- The ambient environment a call executes in: the current state of
the global settings store plus the wall-clock instant `new Date()`
would produce. -/
structure Env where
  userSettings : UserSettings
  wallClock : ℤ
  deriving Repr, DecidableEq

/-- Twelve hours in milliseconds: the `T12:00:00.000Z` offset applied to
a simulated day. -/
def noonMs : ℤ := 12 * 60 * 60 * 1000

/-- The function `getCurrentDate()` from `src/utils/currentDate.js`:
if demo simulation is enabled and a simulated day is set, noon of that
day; otherwise the wall clock. -/
def getCurrentDate (env : Env) : ℤ :=
  match env.userSettings.preferences with
  | none => env.wallClock
  | some prefs =>
    match prefs.simulation with
    | none => env.wallClock
    | some sim =>
      if sim.enabled then
        match sim.date with
        | some d => d * msPerDay + noonMs
        | none => env.wallClock
      else
        env.wallClock

/-- The object returned by `predictPeriodStart`: the three window dates
(as calendar days since the epoch, the content of the ISO date
strings), the three signed day counts, the copied confidence, and the
in-window flag. -/
structure PeriodPrediction where
  windowStart : ℤ
  windowEnd : ℤ
  mostLikely : ℤ
  daysUntilEarliest : ℤ
  daysUntilLatest : ℤ
  daysUntilMostLikely : ℤ
  confidence : Confidence
  isInWindow : Bool
  deriving Repr, DecidableEq

/-- The function `predictPeriodStart(ovulation)` from
`cycleAnalysis.js`. The
`setDate(getDate() + k)` calls add `k` calendar days to the ovulation
instant; `today` is the midnight of `getCurrentDate()`. -/
def predictPeriodStart (ovulation : Option OvulationEvent) (env : Env) :
    Option PeriodPrediction :=
  match ovulation with
  | none => none
  | some ov =>
    if ov.detected = false then
      none
    else
      let ovulationDate := ov.date
      let earliestPeriod := ovulationDate + 12 * msPerDay
      let latestPeriod := ovulationDate + 14 * msPerDay
      let mostLikely := ovulationDate + 13 * msPerDay
      let today := midnight (getCurrentDate env)
      some
        { windowStart := dayKey earliestPeriod
          windowEnd := dayKey latestPeriod
          mostLikely := dayKey mostLikely
          daysUntilEarliest := ceilDiv (earliestPeriod - today) msPerDay
          daysUntilLatest := ceilDiv (latestPeriod - today) msPerDay
          daysUntilMostLikely := ceilDiv (mostLikely - today) msPerDay
          confidence := ov.confidence
          isInWindow := decide (earliestPeriod ≤ today) && decide (today ≤ latestPeriod) }

/-- The object returned by `detectCurrentPhase`. The free-text
`description` and `tip` fields (fixed per-phase copy, explicitly outside
the algorithmic core per the specification scope) are omitted; `none`
stands for a `null` or absent field. -/
structure PhaseAssessment where
  phase : String
  phaseName : String
  temperature : Option ℚ
  trend : Option String
  ovulation : Option OvulationEvent
  periodPrediction : Option PeriodPrediction
  daysSinceOvulation : Option ℤ
  avgBBT : Option ℚ
  deriving Repr, DecidableEq

/-- The `else` branch of the phase assignment in `detectCurrentPhase`
(no ovulation detected): phase, phase name, and the (always absent)
days-since-ovulation count, from the newest-first sorted readings and
the latest temperature. -/
def noOvulationPhase (sorted : List Reading) (currentBBT : ℚ) :
    String × String × Option ℤ :=
  if sorted.length < 6 then
    ("insufficient-data", "Building Baseline", none)
  else
    let avgBBT := ((sorted.take 7).map (·.temperature)).sum / (min 7 sorted.length : ℕ)
    if currentBBT < avgBBT - 1/10 then
      ("pre-ovulation", "Pre-Ovulation", none)
    else if avgBBT + 1/5 < currentBBT then
      ("post-ovulation", "Post-Ovulation", none)
    else
      ("transition", "Transition Phase", none)

/-- The body of `detectCurrentPhase` once the working copies are
prepared — everything from `latest = sorted[0]` and the trend
computation down to the returned object. A pure function of the
newest-first sorted readings, the detector result, and the
environment. -/
def assembleAssessment (sorted : List Reading) (ovulation : Option OvulationEvent)
    (env : Env) : PhaseAssessment :=
    let latest := sorted.headI
    let currentBBT := latest.temperature
    let trend :=
      if 3 ≤ sorted.length then
        let recent3 := (sorted.take 3).map (·.temperature)
        let avgRecent := recent3.sum / 3
        let older3 := ((sorted.drop 3).take 3).map (·.temperature)
        if 3 ≤ older3.length then
          let avgOlder := older3.sum / 3
          if 1/5 ≤ avgRecent - avgOlder then "rising"
          else if 1/5 ≤ avgOlder - avgRecent then "falling"
          else "stable"
        else "stable"
      else "stable"
    let phaseInfo :=
      match ovulation with
      | some ov =>
        if ov.detected then
          let today := midnight (getCurrentDate env)
          let ovulationDate := midnight ov.date
          let dso := (today - ovulationDate).fdiv msPerDay
          if dso < 0 then ("pre-ovulation", "Pre-Ovulation", some dso)
          else if dso = 0 then ("ovulation", "Ovulation Detected", some dso)
          else if dso ≤ 14 then ("luteal", "Luteal Phase", some dso)
          else ("pre-menstrual", "Pre-Menstrual", some dso)
        else
          noOvulationPhase sorted currentBBT
      | none => noOvulationPhase sorted currentBBT
    { phase := phaseInfo.1
      phaseName := phaseInfo.2.1
      temperature := some currentBBT
      trend := some trend
      ovulation := ovulation
      periodPrediction := predictPeriodStart ovulation env
      daysSinceOvulation := phaseInfo.2.2
      avgBBT := some (((sorted.take 7).map (·.temperature)).sum / (min 7 sorted.length : ℕ)) }

/-- The function `detectCurrentPhase(readings)` from
`cycleAnalysis.js`, the top-level phase classifier: on a nonempty
sequence, sort a working copy
newest to oldest, run `detectOvulation` on a copy sorted oldest to
newest, and assemble the assessment. -/
def detectCurrentPhase (readings : List Reading) (env : Env) : PhaseAssessment :=
  if readings.length = 0 then
    { phase := "unknown"
      phaseName := "Unknown"
      temperature := none
      trend := none
      ovulation := none
      periodPrediction := none
      daysSinceOvulation := none
      avgBBT := none }
  else
    assembleAssessment (sortByTimestampDesc readings)
      (detectOvulation (sortByTimestampAsc readings)) env

/-! ### First-match characterisation of the detector (for claim C1) -/

/-- The firing condition of the 3-over-6 rule at candidate index `i` of
the recent window, as the spec states it: the mean of samples
`[i, i+3)` exceeds the mean of samples `[i-6, i)` by at least 0.3 and
every sample in `[i, i+3)` is at least the baseline mean plus 0.1. -/
def ovFiresAt (recent : List Reading) (i : Nat) : Bool :=
  decide (3/10 ≤ meanTemps ((recent.drop i).take 3) - meanTemps ((recent.drop (i - 6)).take 6)) &&
    ((recent.drop i).take 3).all fun r =>
      decide (meanTemps ((recent.drop (i - 6)).take 6) + 1/10 ≤ r.temperature)

/-- The detection object announced at candidate index `i`: date is the
timestamp of sample `i`, confidence is tiered on the average rise, and
the three temperature fields are rounded to two decimals. -/
def ovEventAt (recent : List Reading) (i : Nat) : OvulationEvent :=
  { detected := true
    date := ((recent.drop i).take 3).headI.timestamp
    confidence := confidenceFor
      (meanTemps ((recent.drop i).take 3) - meanTemps ((recent.drop (i - 6)).take 6))
    temperatureRise := round2
      (meanTemps ((recent.drop i).take 3) - meanTemps ((recent.drop (i - 6)).take 6))
    baselineTemp := round2 (meanTemps ((recent.drop (i - 6)).take 6))
    postOvulationTemp := round2 (meanTemps ((recent.drop i).take 3)) }

/-- Modelled from the spec (§4.1): sort a working copy oldest to
newest, restrict to the 30 most recent samples, slide a candidate index
`i` from 6 up to `len - 3` inclusive in increasing order, and return
the event of the FIRST index whose rise fires (`List.find?`), or `none`
when no index qualifies or fewer than 9 samples are supplied. This is
the claim-side definition compared against `detectOvulation`. -/
def detectOvulationSpec (samples : List Reading) : Option OvulationEvent :=
  if samples.length < 9 then
    none
  else
    let sorted := sortByTimestampAsc samples
    let recent := takeLast 30 sorted
    ((List.range' 6 (recent.length - 8)).find? (ovFiresAt recent)).map (ovEventAt recent)

/-- Numeric height of a confidence tier in the order low ≤ medium ≤ high. -/
def confidenceRank : Confidence → Nat
  | .low => 0
  | .medium => 1
  | .high => 2

/-! ### Mutable-array model (for claim C9)

JS arrays are heap objects; `[...readings]` allocates a fresh array and
`.sort` mutates the array it is called on, in place. The heap maps an
array reference (its index) to the list it currently holds. -/

/-- A heap of JS arrays of readings, addressed by allocation index. -/
abbrev Heap := List (List Reading)

/-- Dereference an array: the list a reference currently holds. -/
def Heap.read (h : Heap) (r : Nat) : List Reading := h.getD r []

/-- In-place update of the array behind a reference (what `.sort` does
to the array it is called on). -/
def Heap.write (h : Heap) (r : Nat) (v : List Reading) : Heap := h.set r v

/-- Array copy (the spread `[...a]`): allocate a fresh array holding a
copy of a list, returning the new reference and the grown heap. -/
def Heap.alloc (h : Heap) (v : List Reading) : Nat × Heap := (h.length, h ++ [v])

/-- The detector acting on the heap: its argument is a reference to
the array of the caller. The copy-then-sort idiom is modelled as an
allocation of a copy followed by an in-place sort of the copy. -/
def detectOvulationH (h : Heap) (readings : Nat) : Option OvulationEvent × Heap :=
  if (h.read readings).length < 9 then
    (none, h)
  else
    let alloc1 := h.alloc (h.read readings)
    let copyRef := alloc1.1
    let h1 := alloc1.2
    let h2 := h1.write copyRef (sortByTimestampAsc (h1.read copyRef))
    let sorted := h2.read copyRef
    let recentReadings := takeLast 30 sorted
    (ovScan recentReadings 6 recentReadings.length, h2)

/-- The phase classifier acting on the heap: the newest-first working
copy and the oldest-first copy handed to `detectOvulation` are separate
allocations, and `detectOvulation` itself copies again; the array of
the caller is never written. -/
def detectCurrentPhaseH (h : Heap) (readings : Nat) (env : Env) :
    PhaseAssessment × Heap :=
  if (h.read readings).length = 0 then
    ({ phase := "unknown"
       phaseName := "Unknown"
       temperature := none
       trend := none
       ovulation := none
       periodPrediction := none
       daysSinceOvulation := none
       avgBBT := none }, h)
  else
    let alloc1 := h.alloc (h.read readings)
    let descRef := alloc1.1
    let h1 := alloc1.2
    let h2 := h1.write descRef (sortByTimestampDesc (h1.read descRef))
    let sorted := h2.read descRef
    let alloc2 := h2.alloc (h2.read readings)
    let ascRef := alloc2.1
    let h3 := alloc2.2
    let h4 := h3.write ascRef (sortByTimestampAsc (h3.read ascRef))
    let call := detectOvulationH h4 ascRef
    let ovulation := call.1
    let h5 := call.2
    (assembleAssessment sorted ovulation env, h5)

/-! ### Concrete scenario data used by counterexamples and witnesses -/

/-- Noon (UTC) of a given calendar day, in milliseconds since the epoch. -/
def dayNoon (d : ℤ) : ℤ := d * msPerDay + noonMs

/-- Scenario A data: six days at 36.40 °C followed by three days at
36.80 °C, one sample per day at noon, in chronological order. -/
def scenReadings : List Reading :=
  [⟨364/10, dayNoon 0⟩, ⟨364/10, dayNoon 1⟩, ⟨364/10, dayNoon 2⟩,
   ⟨364/10, dayNoon 3⟩, ⟨364/10, dayNoon 4⟩, ⟨364/10, dayNoon 5⟩,
   ⟨368/10, dayNoon 6⟩, ⟨368/10, dayNoon 7⟩, ⟨368/10, dayNoon 8⟩]

/-- Boundary instance of Scenario A: six days at 36.40 °C followed by
three days at 36.70 °C — every temperature inside the ranges the claim
allows, yet the average rise is exactly 0.30. -/
def scenEdge : List Reading :=
  [⟨364/10, dayNoon 0⟩, ⟨364/10, dayNoon 1⟩, ⟨364/10, dayNoon 2⟩,
   ⟨364/10, dayNoon 3⟩, ⟨364/10, dayNoon 4⟩, ⟨364/10, dayNoon 5⟩,
   ⟨367/10, dayNoon 6⟩, ⟨367/10, dayNoon 7⟩, ⟨367/10, dayNoon 8⟩]

/-- Eight flat samples at 36.40 °C (Scenario B data). -/
def scenFlat8 : List Reading :=
  [⟨364/10, dayNoon 0⟩, ⟨364/10, dayNoon 1⟩, ⟨364/10, dayNoon 2⟩,
   ⟨364/10, dayNoon 3⟩, ⟨364/10, dayNoon 4⟩, ⟨364/10, dayNoon 5⟩,
   ⟨364/10, dayNoon 6⟩, ⟨364/10, dayNoon 7⟩]

/-- Three samples only: enough for a latest reading, not enough for a
trend comparison or an ovulation detection. -/
def scenShort : List Reading :=
  [⟨364/10, dayNoon 0⟩, ⟨365/10, dayNoon 1⟩, ⟨363/10, dayNoon 2⟩]

/-- An environment with no simulation preferences: `getCurrentDate`
returns the wall clock. -/
def envPlain (w : ℤ) : Env := { userSettings := { preferences := none }, wallClock := w }

/-- A store state in which demo simulation is configured but disabled. -/
def envSimOff : Env :=
  { userSettings := { preferences := some { simulation := some { enabled := false, date := some 1000 } } }
    wallClock := dayNoon 20 }

/-- The same store state with demo simulation switched on: only the
global settings store differs from `envSimOff`, not the wall clock. -/
def envSimOn : Env :=
  { userSettings := { preferences := some { simulation := some { enabled := true, date := some 1000 } } }
    wallClock := dayNoon 20 }

/-- A detected ovulation event on day 6, used to probe the predictor. -/
def ovProbe : OvulationEvent :=
  { detected := true
    date := dayNoon 6
    confidence := .medium
    temperatureRise := 2/5
    baselineTemp := 364/10
    postOvulationTemp := 368/10 }

/-! ## Shared lemmas -/

theorem msPerDay_pos : (0 : ℤ) < msPerDay := by norm_num [msPerDay]

theorem length_sortAsc (l : List Reading) : (sortByTimestampAsc l).length = l.length :=
  List.length_insertionSort _ l

theorem length_sortDesc (l : List Reading) : (sortByTimestampDesc l).length = l.length :=
  List.length_insertionSort _ l

theorem ovScan_detected (recent : List Reading) :
    ∀ (fuel i : Nat) (ev : OvulationEvent),
      ovScan recent i fuel = some ev → ev.detected = true := by
  intro fuel
  induction fuel with
  | zero => intro i ev h; simp [ovScan] at h
  | succ n ih =>
    intro i ev h
    rw [ovScan] at h
    split at h
    · simp only [] at h
      split at h
      · cases h; rfl
      · exact ih (i + 1) ev h
    · cases h

theorem detectOvulation_detected (readings : List Reading) (ev : OvulationEvent)
    (h : detectOvulation readings = some ev) : ev.detected = true := by
  rw [detectOvulation] at h
  split at h
  · cases h
  · exact ovScan_detected _ _ _ _ h

/-- Day-granularity calendar shift: adding `k` whole days to an instant
moves its calendar day by exactly `k`. -/
theorem dayKey_add_days (t k : ℤ) : dayKey (t + k * msPerDay) = dayKey t + k := by
  rw [dayKey, dayKey, Int.fdiv_eq_ediv _ (le_of_lt msPerDay_pos),
    Int.fdiv_eq_ediv _ (le_of_lt msPerDay_pos)]
  have : msPerDay = 86400000 := by norm_num [msPerDay]
  rw [this]
  omega

theorem detectOvulation_eq_none_of_short (readings : List Reading)
    (h : readings.length < 9) : detectOvulation readings = none := by
  rw [detectOvulation, if_pos h]

/-! ## Claim C5 -/

/-- C5: for every sample sequence with fewer than 9 entries,
`detectOvulation` returns null. -/
theorem C5_short_sequence_returns_none (readings : List Reading)
    (h : readings.length < 9) : detectOvulation readings = none := by
  rw [detectOvulation, if_pos h]

/-- Witness for C5 at Scenario B data: eight flat samples. -/
theorem C5_short_sequence_returns_none_witness :
    scenFlat8.length < 9 ∧ detectOvulation scenFlat8 = none :=
  ⟨by decide, C5_short_sequence_returns_none scenFlat8 (by decide)⟩

/-! ## Claim C7 -/

/-- C7: the confidence tier is monotone in the average rise over the
firing domain `avgRise ≥ 0.3`, with tier boundaries low on
`[0.3, 0.4)`, medium on `[0.4, 0.5)` and high on `[0.5, ∞)`. -/
theorem C7_confidence_monotone (r1 r2 : ℚ) (h1 : 3/10 ≤ r1) (h2 : r1 ≤ r2) :
    confidenceRank (confidenceFor r1) ≤ confidenceRank (confidenceFor r2) ∧
    (r1 < 2/5 → confidenceFor r1 = .low) ∧
    (2/5 ≤ r1 → r1 < 1/2 → confidenceFor r1 = .medium) ∧
    (1/2 ≤ r1 → confidenceFor r1 = .high) := by
  unfold confidenceFor
  refine ⟨?_, ?_, ?_, ?_⟩ <;> split_ifs <;> simp_all [confidenceRank] <;> linarith

/-- Witness for C7 at the rises 0.35 and 0.45. -/
theorem C7_confidence_monotone_witness :
    confidenceRank (confidenceFor (7/20)) ≤ confidenceRank (confidenceFor (9/20)) ∧
    ((7 : ℚ)/20 < 2/5 → confidenceFor (7/20) = .low) ∧
    ((2 : ℚ)/5 ≤ 7/20 → (7 : ℚ)/20 < 1/2 → confidenceFor (7/20) = .medium) ∧
    ((1 : ℚ)/2 ≤ 7/20 → confidenceFor (7/20) = .high) :=
  C7_confidence_monotone (7/20) (9/20) (by norm_num) (by norm_num)

/-! ## Claim C6 -/

/-- C6: for every detected ovulation event the prediction window is
`event.date + 12/13/14` days — day keys in arithmetic progression with
gap exactly one day — and the confidence is copied from the event. -/
theorem C6_window_shape (ov : OvulationEvent) (env : Env) (hdet : ov.detected = true) :
    ∃ p, predictPeriodStart (some ov) env = some p ∧
      p.windowStart = dayKey (ov.date + 12 * msPerDay) ∧
      p.mostLikely = dayKey (ov.date + 13 * msPerDay) ∧
      p.windowEnd = dayKey (ov.date + 14 * msPerDay) ∧
      p.mostLikely = p.windowStart + 1 ∧
      p.windowEnd = p.mostLikely + 1 ∧
      p.windowStart < p.mostLikely ∧
      p.mostLikely < p.windowEnd ∧
      p.confidence = ov.confidence := by
  refine ⟨_, by rw [predictPeriodStart]; rw [if_neg (by rw [hdet]; simp)], ?_, ?_, ?_, ?_, ?_, ?_, ?_, ?_⟩ <;>
    simp only [dayKey_add_days] <;> omega

/-- Witness for C6 at the probe event in a plain environment. -/
theorem C6_window_shape_witness :
    ∃ p, predictPeriodStart (some ovProbe) (envPlain (dayNoon 20)) = some p ∧
      p.windowStart = dayKey (ovProbe.date + 12 * msPerDay) ∧
      p.mostLikely = dayKey (ovProbe.date + 13 * msPerDay) ∧
      p.windowEnd = dayKey (ovProbe.date + 14 * msPerDay) ∧
      p.mostLikely = p.windowStart + 1 ∧
      p.windowEnd = p.mostLikely + 1 ∧
      p.windowStart < p.mostLikely ∧
      p.mostLikely < p.windowEnd ∧
      p.confidence = ovProbe.confidence :=
  C6_window_shape ovProbe (envPlain (dayNoon 20)) rfl

/-! ## Claim C3 -/

/-- Counterexample to C3: `predictPeriodStart` does not take "now" as a
parameter — it reads `getCurrentDate()`, which consults the global
mutable settings store. Two store states with the SAME wall clock,
differing only in the demo-simulation flag, give different outputs on
the same ovulation event. -/
theorem C3_hidden_state_counterexample :
    envSimOff.wallClock = envSimOn.wallClock ∧
    predictPeriodStart (some ovProbe) envSimOff ≠ predictPeriodStart (some ovProbe) envSimOn := by
  refine ⟨rfl, ?_⟩
  decide

/-- C3 as amended: the engine functions are deterministic given the
store — the environment influences `predictPeriodStart` and
`detectCurrentPhase` only through the value `getCurrentDate()` returns:
two environments on which `getCurrentDate` agrees produce bit-identical
outputs for identical inputs. -/
theorem C3_now_noninterference (readings : List Reading) (ov : Option OvulationEvent)
    (env1 env2 : Env) (h : getCurrentDate env1 = getCurrentDate env2) :
    predictPeriodStart ov env1 = predictPeriodStart ov env2 ∧
    detectCurrentPhase readings env1 = detectCurrentPhase readings env2 := by
  have hp : ∀ o, predictPeriodStart o env1 = predictPeriodStart o env2 := by
    intro o
    cases o with
    | none => rfl
    | some ov => simp only [predictPeriodStart, h]
  exact ⟨hp ov, by simp only [detectCurrentPhase, assembleAssessment, h, hp]⟩

/-- Witness for C3 as amended: a plain-clock environment and a
simulation environment that agree on `getCurrentDate` (noon of day
1000) yield identical outputs. -/
theorem C3_now_noninterference_witness :
    predictPeriodStart (some ovProbe) (envPlain (dayNoon 1000)) =
      predictPeriodStart (some ovProbe) envSimOn ∧
    detectCurrentPhase scenReadings (envPlain (dayNoon 1000)) =
      detectCurrentPhase scenReadings envSimOn :=
  C3_now_noninterference scenReadings (some ovProbe) (envPlain (dayNoon 1000)) envSimOn rfl

/-! ## Claim C1 -/

theorem ovScan_eq_find (recent : List Reading) :
    ∀ (fuel i : Nat), recent.length - (i + 2) ≤ fuel →
      ovScan recent i fuel =
        ((List.range' i (recent.length - 2 - i)).find? (ovFiresAt recent)).map
          (ovEventAt recent) := by
  intro fuel
  induction fuel with
  | zero =>
    intro i h
    have h0 : recent.length - 2 - i = 0 := by omega
    rw [h0]
    simp [ovScan]
  | succ n ih =>
    intro i h
    rw [ovScan]
    split
    · have hr : recent.length - 2 - i = (recent.length - 2 - (i + 1)) + 1 := by omega
      rw [hr, List.range'_succ]
      have hcond :
          (decide (3/10 ≤ meanTemps ((recent.drop i).take 3) -
              meanTemps ((recent.drop (i - 6)).take 6)) &&
            ((recent.drop i).take 3).all fun r =>
              decide (meanTemps ((recent.drop (i - 6)).take 6) + 1/10 ≤ r.temperature)) =
          ovFiresAt recent i := rfl
      simp only []
      rw [hcond, List.find?_cons]
      cases hb : ovFiresAt recent i with
      | true => rfl
      | false => exact ih (i + 1) (by omega)
    · have h0 : recent.length - 2 - i = 0 := by omega
      rw [h0]
      simp

/-- C1: on at least 9 samples, `detectOvulation` behaves exactly as the
spec describes — sort a working copy oldest to newest, keep the 30 most
recent samples, scan candidate indices 6 up to `len - 3` in increasing
order, return the event of the first index where the 3-over-6 rise
fires (earliest sufficient rise wins), and null when no index
qualifies. -/
theorem C1_first_sufficient_rise_wins (readings : List Reading)
    (h9 : 9 ≤ readings.length) :
    detectOvulation readings = detectOvulationSpec readings := by
  rw [detectOvulation, detectOvulationSpec]
  have hn : ¬ readings.length < 9 := by omega
  rw [if_neg hn, if_neg hn]
  simp only []
  rw [ovScan_eq_find _ _ 6 (by omega)]
  have : (takeLast 30 (sortByTimestampAsc readings)).length - 2 - 6 =
      (takeLast 30 (sortByTimestampAsc readings)).length - 8 := by omega
  rw [this]

/-- Witness for C1 on the Scenario A data. -/
theorem C1_first_sufficient_rise_wins_witness :
    detectOvulation scenReadings = detectOvulationSpec scenReadings :=
  C1_first_sufficient_rise_wins scenReadings (by decide)

/-! ## Claim C2 -/

/-- C2: whenever `detectCurrentPhase` finds a detected ovulation event
it reports `daysSinceOvulation = floor((midnight(now) − midnight(event.date)) / 1 day)`
and assigns the phase pre-ovulation / ovulation / luteal /
pre-menstrual according to that count being negative / zero / in 1..14
/ above 14. -/
theorem C2_phase_by_days_since_ovulation (readings : List Reading) (env : Env)
    (ev : OvulationEvent)
    (hov : detectOvulation (sortByTimestampAsc readings) = some ev) :
    (detectCurrentPhase readings env).daysSinceOvulation =
      some ((midnight (getCurrentDate env) - midnight ev.date).fdiv msPerDay) ∧
    (detectCurrentPhase readings env).phase =
      (if (midnight (getCurrentDate env) - midnight ev.date).fdiv msPerDay < 0 then
        "pre-ovulation"
      else if (midnight (getCurrentDate env) - midnight ev.date).fdiv msPerDay = 0 then
        "ovulation"
      else if (midnight (getCurrentDate env) - midnight ev.date).fdiv msPerDay ≤ 14 then
        "luteal"
      else
        "pre-menstrual") := by
  have hne : ¬ readings.length = 0 := by
    intro h0
    rw [List.length_eq_zero] at h0
    subst h0
    simp [detectOvulation, sortByTimestampAsc, List.insertionSort] at hov
  have hdet := detectOvulation_detected _ _ hov
  rw [detectCurrentPhase, if_neg hne]
  simp only [assembleAssessment, hov, hdet, if_true]
  split_ifs <;> simp_all

/-- Witness for C2, which is also Scenario C of the spec: ovulation
detected on day 6, "now" on day 22 — sixteen days later — yields phase
pre-menstrual with `daysSinceOvulation = 16`. -/
theorem C2_phase_by_days_since_ovulation_witness :
    (detectCurrentPhase scenReadings (envPlain (dayNoon 22))).daysSinceOvulation = some 16 ∧
    (detectCurrentPhase scenReadings (envPlain (dayNoon 22))).phase = "pre-menstrual" := by
  have h := C2_phase_by_days_since_ovulation scenReadings (envPlain (dayNoon 22))
    { detected := true, date := dayNoon 6, confidence := .medium,
      temperatureRise := 2/5, baselineTemp := 364/10, postOvulationTemp := 368/10 }
    (by norm_num [detectOvulation, scenReadings, sortByTimestampAsc, List.insertionSort,
      List.orderedInsert, takeLast, ovScan, meanTemps, confidenceFor, round2, round_eq,
      dayNoon, msPerDay, noonMs])
  have h16 : (midnight (getCurrentDate (envPlain (dayNoon 22))) -
      midnight (dayNoon 6)).fdiv msPerDay = 16 := by decide
  refine ⟨?_, ?_⟩
  · rw [h.1, h16]
  · rw [h.2, h16]
    norm_num

/-! ## Claim C4 -/

/-- Counterexample to C4: the empty sequence has fewer than 6 samples
and no detected ovulation, yet `detectCurrentPhase` classifies it as
`unknown` — not `insufficient-data` — and its trend field is null, not
`stable`. -/
theorem C4_empty_sequence_counterexample :
    ([] : List Reading).length < 6 ∧
    detectOvulation ([] : List Reading) = none ∧
    (detectCurrentPhase [] (envPlain (dayNoon 0))).phase = "unknown" ∧
    (detectCurrentPhase [] (envPlain (dayNoon 0))).phase ≠ "insufficient-data" ∧
    (detectCurrentPhase [] (envPlain (dayNoon 0))).trend ≠ some "stable" := by
  refine ⟨by decide, by decide, by decide, by decide, by decide⟩

/-- C4 as amended: for every NONEMPTY sequence with fewer than 6
samples the computed trend is `stable` and `detectCurrentPhase`
classifies the phase as `insufficient-data` (no ovulation can be
detected from so few samples); the empty sequence instead yields the
`unknown` assessment with a null trend. -/
theorem C4_short_nonempty_insufficient_data (readings : List Reading) (env : Env)
    (hne : readings ≠ []) (hlen : readings.length < 6) :
    (detectCurrentPhase readings env).trend = some "stable" ∧
    (detectCurrentPhase readings env).phase = "insufficient-data" ∧
    (detectCurrentPhase readings env).ovulation = none := by
  have hne0 : ¬ readings.length = 0 := by
    simpa [List.length_eq_zero] using hne
  have hov : detectOvulation (sortByTimestampAsc readings) = none :=
    detectOvulation_eq_none_of_short _ (by rw [length_sortAsc]; omega)
  have hdlen : (sortByTimestampDesc readings).length = readings.length :=
    length_sortDesc readings
  have hshort : (sortByTimestampDesc readings).length < 6 := by omega
  have holder : ¬ 3 ≤ ((((sortByTimestampDesc readings).drop 3).take 3).map
      (·.temperature)).length := by
    simp only [List.length_map, List.length_take, List.length_drop]
    omega
  rw [detectCurrentPhase, if_neg hne0]
  simp only [assembleAssessment, hov, noOvulationPhase, if_pos hshort, if_neg holder]
  split_ifs <;> simp

/-- Witness for C4 as amended at a three-sample sequence. -/
theorem C4_short_nonempty_insufficient_data_witness :
    (detectCurrentPhase scenShort (envPlain (dayNoon 2))).trend = some "stable" ∧
    (detectCurrentPhase scenShort (envPlain (dayNoon 2))).phase = "insufficient-data" ∧
    (detectCurrentPhase scenShort (envPlain (dayNoon 2))).ovulation = none :=
  C4_short_nonempty_insufficient_data scenShort (envPlain (dayNoon 2))
    (by decide) (by decide)

/-! ## Claim C8 -/

/-- Counterexample to C8: with all six baseline days at 36.40 °C (inside
36.30–36.40) and all three rise days at 36.70 °C (inside 36.70–36.80),
the detection fires with `temperatureRise = 0.30` — outside the claimed
0.35–0.45 — and confidence `low`, not `medium`. -/
theorem C8_boundary_counterexample :
    detectOvulation scenEdge =
      some { detected := true, date := dayNoon 6, confidence := .low,
             temperatureRise := 3/10, baselineTemp := 364/10,
             postOvulationTemp := 367/10 } ∧
    (3 : ℚ)/10 < 7/20 ∧
    Confidence.low ≠ Confidence.medium := by
  refine ⟨?_, by norm_num, by decide⟩
  norm_num [detectOvulation, scenEdge, sortByTimestampAsc, List.insertionSort,
    List.orderedInsert, takeLast, ovScan, meanTemps, confidenceFor, round2, round_eq,
    dayNoon, msPerDay, noonMs]

/-- C8 as amended: for every chronological 9-sample sequence of six
days in 36.30–36.40 °C followed by three days in 36.70–36.80 °C,
`detectOvulation` fires with `detected: true` and date equal to the
timestamp of the seventh sample; the average rise lies in [0.30, 0.50] (not
0.35–0.45) and the confidence is the tier of that rise — low, medium or
high according to the 0.4 and 0.5 boundaries — rather than always
`medium`. -/
theorem C8_scenario_a_amended
    (b0 b1 b2 b3 b4 b5 q0 q1 q2 : ℚ) (t0 t1 t2 t3 t4 t5 t6 t7 t8 : ℤ)
    (h01 : t0 < t1) (h12 : t1 < t2) (h23 : t2 < t3) (h34 : t3 < t4)
    (h45 : t4 < t5) (h56 : t5 < t6) (h67 : t6 < t7) (h78 : t7 < t8)
    (hb0 : 363/10 ≤ b0) (hb0u : b0 ≤ 364/10)
    (hb1 : 363/10 ≤ b1) (hb1u : b1 ≤ 364/10)
    (hb2 : 363/10 ≤ b2) (hb2u : b2 ≤ 364/10)
    (hb3 : 363/10 ≤ b3) (hb3u : b3 ≤ 364/10)
    (hb4 : 363/10 ≤ b4) (hb4u : b4 ≤ 364/10)
    (hb5 : 363/10 ≤ b5) (hb5u : b5 ≤ 364/10)
    (hq0 : 367/10 ≤ q0) (hq0u : q0 ≤ 368/10)
    (hq1 : 367/10 ≤ q1) (hq1u : q1 ≤ 368/10)
    (hq2 : 367/10 ≤ q2) (hq2u : q2 ≤ 368/10) :
    detectOvulation
        [⟨b0, t0⟩, ⟨b1, t1⟩, ⟨b2, t2⟩, ⟨b3, t3⟩, ⟨b4, t4⟩, ⟨b5, t5⟩,
         ⟨q0, t6⟩, ⟨q1, t7⟩, ⟨q2, t8⟩] =
      some { detected := true, date := t6,
             confidence := confidenceFor ((q0 + q1 + q2)/3 - (b0 + b1 + b2 + b3 + b4 + b5)/6),
             temperatureRise := round2 ((q0 + q1 + q2)/3 - (b0 + b1 + b2 + b3 + b4 + b5)/6),
             baselineTemp := round2 ((b0 + b1 + b2 + b3 + b4 + b5)/6),
             postOvulationTemp := round2 ((q0 + q1 + q2)/3) } ∧
    3/10 ≤ (q0 + q1 + q2)/3 - (b0 + b1 + b2 + b3 + b4 + b5)/6 ∧
    (q0 + q1 + q2)/3 - (b0 + b1 + b2 + b3 + b4 + b5)/6 ≤ 1/2 := by
  have hB1 : (b0 + b1 + b2 + b3 + b4 + b5)/6 ≤ 364/10 := by linarith
  have hB0 : 363/10 ≤ (b0 + b1 + b2 + b3 + b4 + b5)/6 := by linarith
  have hR1 : (q0 + q1 + q2)/3 ≤ 368/10 := by linarith
  have hR0 : 367/10 ≤ (q0 + q1 + q2)/3 := by linarith
  have hsorted : sortByTimestampAsc
      [⟨b0, t0⟩, ⟨b1, t1⟩, ⟨b2, t2⟩, ⟨b3, t3⟩, ⟨b4, t4⟩, ⟨b5, t5⟩,
       ⟨q0, t6⟩, ⟨q1, t7⟩, ⟨q2, t8⟩] =
      [⟨b0, t0⟩, ⟨b1, t1⟩, ⟨b2, t2⟩, ⟨b3, t3⟩, ⟨b4, t4⟩, ⟨b5, t5⟩,
       ⟨q0, t6⟩, ⟨q1, t7⟩, ⟨q2, t8⟩] := by
    apply List.Sorted.insertionSort_eq
    simp [List.sorted_cons]
    omega
  refine ⟨?_, by linarith, by linarith⟩
  rw [detectOvulation, if_neg (by simp)]
  simp only [hsorted]
  rw [show takeLast 30
      [(⟨b0, t0⟩ : Reading), ⟨b1, t1⟩, ⟨b2, t2⟩, ⟨b3, t3⟩, ⟨b4, t4⟩, ⟨b5, t5⟩,
       ⟨q0, t6⟩, ⟨q1, t7⟩, ⟨q2, t8⟩] =
      [⟨b0, t0⟩, ⟨b1, t1⟩, ⟨b2, t2⟩, ⟨b3, t3⟩, ⟨b4, t4⟩, ⟨b5, t5⟩,
       ⟨q0, t6⟩, ⟨q1, t7⟩, ⟨q2, t8⟩] from by simp [takeLast]]
  simp only [List.length_cons, List.length_nil]
  norm_num
  rw [show (9:ℕ) = 8 + 1 from rfl, ovScan]
  rw [if_pos (by norm_num)]
  simp only [List.drop, List.take, meanTemps, List.map_cons, List.map_nil, List.sum_cons,
    List.sum_nil, List.all_cons, List.all_nil, List.headI, List.length_cons, List.length_nil]
  rw [if_pos]
  · norm_num
    refine ⟨?_, ?_, ?_, ?_⟩ <;> (congr 1 <;> ring)
  · simp only [Bool.and_eq_true, decide_eq_true_eq, and_true]
    norm_num
    refine ⟨by linarith, by linarith, by linarith, by linarith⟩

/-- Witness for C8 as amended: midrange Scenario A data (36.40 °C
baseline, 36.80 °C rise) indeed yields confidence `medium`. -/
theorem C8_scenario_a_amended_witness :
    detectOvulation
        [⟨364/10, dayNoon 0⟩, ⟨364/10, dayNoon 1⟩, ⟨364/10, dayNoon 2⟩,
         ⟨364/10, dayNoon 3⟩, ⟨364/10, dayNoon 4⟩, ⟨364/10, dayNoon 5⟩,
         ⟨368/10, dayNoon 6⟩, ⟨368/10, dayNoon 7⟩, ⟨368/10, dayNoon 8⟩] =
      some { detected := true, date := dayNoon 6,
             confidence := confidenceFor ((368/10 + 368/10 + 368/10)/3 -
               (364/10 + 364/10 + 364/10 + 364/10 + 364/10 + 364/10)/6),
             temperatureRise := round2 ((368/10 + 368/10 + 368/10)/3 -
               (364/10 + 364/10 + 364/10 + 364/10 + 364/10 + 364/10)/6),
             baselineTemp := round2
               ((364/10 + 364/10 + 364/10 + 364/10 + 364/10 + 364/10)/6),
             postOvulationTemp := round2 ((368/10 + 368/10 + 368/10)/3) } ∧
    (3 : ℚ)/10 ≤ (368/10 + 368/10 + 368/10)/3 -
      (364/10 + 364/10 + 364/10 + 364/10 + 364/10 + 364/10)/6 ∧
    (368/10 + 368/10 + 368/10)/3 -
      ((364 : ℚ)/10 + 364/10 + 364/10 + 364/10 + 364/10 + 364/10)/6 ≤ 1/2 := by
  refine C8_scenario_a_amended (364/10) (364/10) (364/10) (364/10) (364/10) (364/10)
    (368/10) (368/10) (368/10)
    (dayNoon 0) (dayNoon 1) (dayNoon 2) (dayNoon 3) (dayNoon 4) (dayNoon 5)
    (dayNoon 6) (dayNoon 7) (dayNoon 8)
    ?_ ?_ ?_ ?_ ?_ ?_ ?_ ?_ ?_ ?_ ?_ ?_ ?_ ?_ ?_ ?_ ?_ ?_ ?_ ?_ ?_ ?_ ?_ ?_ ?_ ?_ <;>
    first
    | decide
    | norm_num

/-! ## Claim C9 -/

theorem Heap.length_write (h : Heap) (r : Nat) (v : List Reading) :
    (h.write r v).length = h.length := List.length_set h r v

theorem Heap.read_write_self (h : Heap) (r : Nat) (v : List Reading)
    (hr : r < h.length) : (h.write r v).read r = v := by
  simp [Heap.read, Heap.write, List.getD_eq_getElem?_getD, List.getElem?_set_self hr]

theorem Heap.read_write_ne (h : Heap) (r s : Nat) (v : List Reading)
    (hne : r ≠ s) : (h.write r v).read s = h.read s := by
  simp [Heap.read, Heap.write, List.getD_eq_getElem?_getD, List.getElem?_set_ne hne]

theorem Heap.read_append_lt (h : Heap) (v : List Reading) (s : Nat)
    (hs : s < h.length) : Heap.read (h ++ [v]) s = h.read s :=
  List.getD_append h [v] [] s hs

theorem Heap.read_append_self (h : Heap) (v : List Reading) :
    Heap.read (h ++ [v]) h.length = v := by
  simp [Heap.read, List.getD_append_right h [v] [] h.length le_rfl]

/-- `detectOvulationH` computes `detectOvulation` of the dereferenced
argument, leaves every pre-existing array unchanged, and only grows the
heap. -/
theorem detectOvulationH_spec (h : Heap) (r : Nat) :
    (detectOvulationH h r).1 = detectOvulation (h.read r) ∧
    (∀ s, s < h.length → (detectOvulationH h r).2.read s = h.read s) ∧
    h.length ≤ (detectOvulationH h r).2.length := by
  rw [detectOvulationH, detectOvulation]
  split
  · exact ⟨rfl, fun s _ => rfl, le_rfl⟩
  · simp only [Heap.alloc]
    refine ⟨?_, ?_, ?_⟩
    · rw [Heap.read_append_self, Heap.read_write_self _ _ _ (by simp)]
    · intro s hs
      rw [Heap.read_write_ne _ _ _ _ (by omega), Heap.read_append_lt _ _ _ hs]
    · rw [Heap.length_write, List.length_append]
      simp

/-- `detectCurrentPhaseH` computes `detectCurrentPhase` of the
dereferenced argument and leaves the array of the caller unchanged. -/
theorem detectCurrentPhaseH_spec (h : Heap) (r : Nat) (env : Env) (hr : r < h.length) :
    (detectCurrentPhaseH h r env).1 = detectCurrentPhase (h.read r) env ∧
    (detectCurrentPhaseH h r env).2.read r = h.read r := by
  rw [detectCurrentPhaseH, detectCurrentPhase]
  split
  · exact ⟨rfl, rfl⟩
  · simp only [Heap.alloc]
    generalize hG : Heap.write (h ++ [h.read r]) h.length
      (sortByTimestampDesc (Heap.read (h ++ [h.read r]) h.length)) = G
    have hGlen : G.length = h.length + 1 := by
      rw [← hG, Heap.length_write, List.length_append]
      rfl
    have hGr : G.read r = h.read r := by
      rw [← hG, Heap.read_write_ne _ _ _ _ (by omega), Heap.read_append_lt _ _ _ hr]
    have hGsorted : G.read h.length = sortByTimestampDesc (h.read r) := by
      rw [← hG]
      rw [Heap.read_append_self, Heap.read_write_self _ _ _ (by simp)]
    rw [hGsorted, hGr]
    have h3read : Heap.read (G ++ [h.read r]) G.length = h.read r :=
      Heap.read_append_self G _
    rw [h3read]
    generalize hH : Heap.write (G ++ [h.read r]) G.length
      (sortByTimestampAsc (h.read r)) = H
    have hHasc : H.read G.length = sortByTimestampAsc (h.read r) := by
      rw [← hH, Heap.read_write_self _ _ _ (by simp)]
    have hHr : H.read r = h.read r := by
      rw [← hH, Heap.read_write_ne _ _ _ _ (by omega),
        Heap.read_append_lt _ _ _ (by omega)]
      exact hGr
    have hHlen : H.length = G.length + 1 := by
      rw [← hH, Heap.length_write, List.length_append]
      rfl
    obtain ⟨hc1, hc2, _⟩ := detectOvulationH_spec H G.length
    rw [hc1, hHasc]
    refine ⟨rfl, ?_⟩
    rw [hc2 r (by omega)]
    exact hHr

/-- C9: neither `detectOvulation` nor `detectCurrentPhase` mutates its
input array — after either call the input array holds the same list
as before, all sorting having happened on freshly allocated copies —
and the computed results agree with the pure functions of the input
list. (`predictPeriodStart` takes no array at all; it is a pure
function of the event and the environment by construction.) -/
theorem C9_engine_does_not_mutate_input (h : Heap) (r : Nat) (env : Env)
    (hr : r < h.length) :
    (detectOvulationH h r).2.read r = h.read r ∧
    (detectOvulationH h r).1 = detectOvulation (h.read r) ∧
    (detectCurrentPhaseH h r env).2.read r = h.read r ∧
    (detectCurrentPhaseH h r env).1 = detectCurrentPhase (h.read r) env := by
  obtain ⟨ho1, ho2, _⟩ := detectOvulationH_spec h r
  obtain ⟨hp1, hp2⟩ := detectCurrentPhaseH_spec h r env hr
  exact ⟨ho2 r hr, ho1, hp2, hp1⟩

/-- Witness for C9 on a one-array heap holding the Scenario A data. -/
theorem C9_engine_does_not_mutate_input_witness :
    (detectOvulationH [scenReadings] 0).2.read 0 = Heap.read [scenReadings] 0 ∧
    (detectOvulationH [scenReadings] 0).1 = detectOvulation (Heap.read [scenReadings] 0) ∧
    (detectCurrentPhaseH [scenReadings] 0 (envPlain (dayNoon 8))).2.read 0 =
      Heap.read [scenReadings] 0 ∧
    (detectCurrentPhaseH [scenReadings] 0 (envPlain (dayNoon 8))).1 =
      detectCurrentPhase (Heap.read [scenReadings] 0) (envPlain (dayNoon 8)) :=
  C9_engine_does_not_mutate_input [scenReadings] 0 (envPlain (dayNoon 8)) (by decide)

/-! ## Claim C10 -/

instance : IsTotal Reading (fun a b => a.timestamp ≤ b.timestamp) :=
  ⟨fun a b => le_total a.timestamp b.timestamp⟩

instance : IsTrans Reading (fun a b => a.timestamp ≤ b.timestamp) :=
  ⟨fun _ _ _ hab hbc => le_trans hab hbc⟩

instance : IsTotal Reading (fun a b => b.timestamp ≤ a.timestamp) :=
  ⟨fun a b => (le_total b.timestamp a.timestamp)⟩

instance : IsTrans Reading (fun a b => b.timestamp ≤ a.timestamp) :=
  ⟨fun _ _ _ hab hbc => le_trans hbc hab⟩

/-- Two sorted lists that are permutations of each other and whose
timestamps are pairwise distinct are equal, for any sort relation that
is antisymmetric up to timestamps. -/
theorem sorted_perm_nodup_keys_eq {R : Reading → Reading → Prop}
    (hanti : ∀ a b : Reading, R a b → R b a → a.timestamp = b.timestamp) :
    ∀ {l1 l2 : List Reading}, l1.Perm l2 → l1.Sorted R → l2.Sorted R →
      (l1.map (·.timestamp)).Nodup → l1 = l2 := by
  intro l1
  induction l1 with
  | nil =>
    intro l2 hp _ _ _
    exact hp.nil_eq
  | cons a t1 ih =>
    intro l2 hp hs1 hs2 hnd
    cases l2 with
    | nil => exact absurd hp.symm.nil_eq (by simp)
    | cons b t2 =>
      have hab : a = b := by
        by_contra hne
        have hamem : a ∈ b :: t2 := hp.mem_iff.mp (List.mem_cons_self a t1)
        have hbmem : b ∈ a :: t1 := hp.symm.mem_iff.mp (List.mem_cons_self b t2)
        have hat2 : a ∈ t2 := by
          rcases List.mem_cons.mp hamem with h | h
          · exact absurd h hne
          · exact h
        have hbt1 : b ∈ t1 := by
          rcases List.mem_cons.mp hbmem with h | h
          · exact absurd h.symm hne
          · exact h
        have hRba : R b a := (List.sorted_cons.mp hs2).1 a hat2
        have hRab : R a b := (List.sorted_cons.mp hs1).1 b hbt1
        have hts : a.timestamp = b.timestamp := hanti a b hRab hRba
        have hnd1 : (a.timestamp :: t1.map (·.timestamp)).Nodup := by
          simpa only [List.map_cons] using hnd
        have hnot := (List.nodup_cons.mp hnd1).1
        exact hnot (by rw [hts]; exact List.mem_map_of_mem _ hbt1)
      subst hab
      have ht : t1.Perm t2 := hp.cons_inv
      have hnd1 : (a.timestamp :: t1.map (·.timestamp)).Nodup := by
        simpa only [List.map_cons] using hnd
      have := ih ht (List.sorted_cons.mp hs1).2 (List.sorted_cons.mp hs2).2
        (List.nodup_cons.mp hnd1).2
      rw [this]

theorem sortAsc_eq_of_perm (l1 l2 : List Reading) (hp : l1.Perm l2)
    (hnd : (l1.map (·.timestamp)).Nodup) :
    sortByTimestampAsc l1 = sortByTimestampAsc l2 := by
  apply sorted_perm_nodup_keys_eq (fun a b h1 h2 => le_antisymm h1 h2)
  · exact ((List.perm_insertionSort (fun a b : Reading => a.timestamp ≤ b.timestamp) l1).trans
      hp).trans (List.perm_insertionSort (fun a b : Reading => a.timestamp ≤ b.timestamp) l2).symm
  · exact List.sorted_insertionSort (fun a b : Reading => a.timestamp ≤ b.timestamp) l1
  · exact List.sorted_insertionSort (fun a b : Reading => a.timestamp ≤ b.timestamp) l2
  · exact (((List.perm_insertionSort (fun a b : Reading => a.timestamp ≤ b.timestamp) l1).map
      (·.timestamp)).nodup_iff).mpr hnd

theorem sortDesc_eq_of_perm (l1 l2 : List Reading) (hp : l1.Perm l2)
    (hnd : (l1.map (·.timestamp)).Nodup) :
    sortByTimestampDesc l1 = sortByTimestampDesc l2 := by
  apply sorted_perm_nodup_keys_eq (fun a b h1 h2 => le_antisymm h2 h1)
  · exact ((List.perm_insertionSort (fun a b : Reading => b.timestamp ≤ a.timestamp) l1).trans
      hp).trans (List.perm_insertionSort (fun a b : Reading => b.timestamp ≤ a.timestamp) l2).symm
  · exact List.sorted_insertionSort (fun a b : Reading => b.timestamp ≤ a.timestamp) l1
  · exact List.sorted_insertionSort (fun a b : Reading => b.timestamp ≤ a.timestamp) l2
  · exact (((List.perm_insertionSort (fun a b : Reading => b.timestamp ≤ a.timestamp) l1).map
      (·.timestamp)).nodup_iff).mpr hnd

/-- C10: with pairwise-distinct timestamps, `detectOvulation` and
`detectCurrentPhase` are insensitive to the order of the input — every
permutation of the sample sequence produces the same result, because
both functions re-sort a copy of the input by timestamp. -/
theorem C10_order_insensitivity (l1 l2 : List Reading) (env : Env)
    (hp : l1.Perm l2) (hnd : (l1.map (·.timestamp)).Nodup) :
    detectOvulation l1 = detectOvulation l2 ∧
    detectCurrentPhase l1 env = detectCurrentPhase l2 env := by
  have hasc := sortAsc_eq_of_perm l1 l2 hp hnd
  have hdesc := sortDesc_eq_of_perm l1 l2 hp hnd
  have hlen := hp.length_eq
  constructor
  · rw [detectOvulation, detectOvulation, hlen, hasc]
  · rw [detectCurrentPhase, detectCurrentPhase, hlen, hasc, hdesc]

/-- Witness for C10: the Scenario A data and its reversal. -/
theorem C10_order_insensitivity_witness :
    detectOvulation scenReadings = detectOvulation scenReadings.reverse ∧
    detectCurrentPhase scenReadings (envPlain (dayNoon 8)) =
      detectCurrentPhase scenReadings.reverse (envPlain (dayNoon 8)) :=
  C10_order_insensitivity scenReadings scenReadings.reverse (envPlain (dayNoon 8))
    (List.reverse_perm scenReadings).symm (by decide)

end Luna
